import Mathlib

/-!
Shallow embedding of the calorie-adjustment core of the NutriSmart
repository (src/services/CalorieAdjustmentService.ts).

Modelling conventions:
* JavaScript `number`s are modelled as rationals (ℚ); the service performs
  only field arithmetic and comparisons, no float-specific operations are
  relied on by any verified property.
* Dates are modelled as rational "days since epoch"; `new Date(e.date)`
  comparisons become comparisons of these numbers, and the wall-clock time
  captured by `new Date()` is an explicit `now : ℚ` argument.
* `Array.prototype.sort` with comparator `(a, b) => date(b) - date(a)` is a
  stable sort; it is modelled by Mathlib's stable `List.insertionSort` on
  the corresponding total preorder.  Where the source sorts in place
  (`weightHistory.sort(...)` in `checkWeightVelocity`), the embedding
  threads the mutated array through explicitly (functions suffixed `S`
  return the post-call state of the history array).
* `Number.prototype.toFixed(1)` is approximated on the nonnegative
  magnitudes that reach it; message strings are carried faithfully but no
  verified property depends on an interpolated digit string.
* The collaborators from nutritionCalculator.ts and
  PlateauDetectionService.ts are imported by the service but their sources
  are not part of the given tree; following §6 of the spec they are
  parameters of the embedding (see `Nutrition`).
-/

namespace NutriSmart

/-- Weight entry as stored in weight_history (src/unnamed/part_002):
`{ id, user_id, weight, date, created_at }`. -/
structure WeightEntry where
  id : String
  userId : String
  weight : ℚ
  date : ℚ
  createdAt : ℚ
deriving DecidableEq, Repr

/-- Status of a weight goal (spec §3: one of active, achieved, abandoned). -/
inductive GoalStatus where
  | active
  | achieved
  | abandoned
deriving DecidableEq, Repr

/-- Weight goal: `{ startWeight, targetWeight, startDate, status }`. -/
structure WeightGoal where
  startWeight : ℚ
  targetWeight : ℚ
  startDate : ℚ
  status : GoalStatus
deriving DecidableEq, Repr

/-- Gender values of the profile ('masculino' | 'feminino' | 'outro'). -/
inductive Gender where
  | masculino
  | feminino
  | outro
deriving DecidableEq, Repr

/-- Canonical activity levels (type ActivityLevel of nutritionCalculator). -/
inductive ActivityLevel where
  | sedentario
  | leve
  | moderado
  | intenso
  | muito_intenso
deriving DecidableEq, Repr

/-- Canonical goal types (type Goal of nutritionCalculator). -/
inductive Goal where
  | perder_peso
  | manter_peso
  | ganhar_massa
deriving DecidableEq, Repr

/-- The slice of the User profile consumed by CalorieAdjustmentService.
Optional numeric fields are `Option ℚ` (the service applies `|| default`
to them); `activityLevel` and `goal` are raw stored strings that the
service normalizes itself. -/
structure User where
  weight : Option ℚ
  height : Option ℚ
  age : Option ℚ
  gender : Option Gender
  activityLevel : Option String
  goal : Option String
  dailyCalorieGoal : ℚ
  isClinicalMode : Bool
  weightGoal : Option WeightGoal
deriving DecidableEq, Repr

/-- JavaScript `v || d` on an optional number: `undefined` and `0` are
falsy, so both select the default. -/
def jsOrQ : Option ℚ → ℚ → ℚ
  | none, d => d
  | some x, d => if x = 0 then d else x

/-- JavaScript `Math.round`: floor(x + 1/2), also for negative arguments. -/
def jsRound (q : ℚ) : ℤ := ⌊q + 1 / 2⌋

/-- Rendering used for `x.toFixed(1)` on the nonnegative magnitudes that
reach it in messages; digit-exact float formatting is not modelled and no
verified property depends on it. -/
def toFixed1 (q : ℚ) : String :=
  let n : ℕ := (⌊q * 10 + 1 / 2⌋).toNat
  toString (n / 10) ++ "." ++ toString (n % 10)

/-- Substring test for JavaScript `String.prototype.includes`, on the
underlying character lists. -/
def hasSubstr (pat : List Char) : List Char → Bool
  | [] => pat.isEmpty
  | c :: rest => pat.isPrefixOf (c :: rest) || hasSubstr pat rest

/-- `s.includes(pat)` from the source's plateau-reason test. -/
def jsIncludes (s pat : String) : Bool := hasSubstr pat.data s.data

/-- Result type of the external obesity-aware weight substitution
(`calculateAdjustedWeight` returns `{ weightForCalc }`). -/
structure AdjustedWeight where
  weightForCalc : ℚ
deriving DecidableEq, Repr

/-- Result type of the external `calculateCarbs` (`{ carbGrams }`). -/
structure CarbResult where
  carbGrams : ℚ
deriving DecidableEq, Repr

/-- Result of the external plateau detector: `{ suggestion, message }`;
the suggestion the service inspects is the string 'maintenance_week'. -/
structure PlateauAnalysis where
  suggestion : String
  message : String
deriving DecidableEq, Repr

/-- Modelled from the spec: the external collaborators of §6
(`calculateBMR`, `calculateTDEE`, `calculateCalorieGoal`,
`calculateAdjustedWeight`, `calculateProtein`, `calculateFat`,
`calculateCarbs` from nutritionCalculator.ts and `detectPlateau` from
PlateauDetectionService.ts).  Those two files are not part of the given
sources, and the spec fixes only their signatures, so the embedding is
parametric in this bundle of pure functions. -/
structure Nutrition where
  calculateBMR : ℚ → ℚ → ℚ → Gender → ℚ
  calculateTDEE : ℚ → ActivityLevel → ℚ
  calculateCalorieGoal : ℚ → Goal → ℚ
  calculateAdjustedWeight : ℚ → ℚ → ℚ → AdjustedWeight
  calculateProtein : ℚ → Goal → Bool → ℚ
  calculateFat : ℚ → ℚ
  calculateCarbs : ℚ → ℚ → ℚ → CarbResult
  detectPlateau : List WeightEntry → ℚ → ℚ → PlateauAnalysis

/-- Output record of the service (interface CalorieAdjustment). -/
inductive AdjustReason where
  | weight_changed
  | plateau_detected
  | fast_loss
  | slow_progress
  | goal_achieved
  | none
deriving DecidableEq, Repr

/-- Severity tag of a CalorieAdjustment. -/
inductive Severity where
  | info
  | warning
  | success
deriving DecidableEq, Repr

/-- interface CalorieAdjustment of the source. -/
structure CalorieAdjustment where
  shouldAdjust : Bool
  reason : AdjustReason
  previousGoal : ℚ
  suggestedGoal : ℚ
  difference : ℚ
  message : String
  severity : Severity
deriving DecidableEq, Repr

/-- Alert categories of interface WeightChangeAlert. -/
inductive AlertType where
  | fast_loss
  | fast_gain
  | slow_progress
  | on_track
  | goal_achieved
deriving DecidableEq, Repr

/-- interface WeightChangeAlert of the source. -/
structure WeightChangeAlert where
  type : AlertType
  weeklyChange : ℚ
  message : String
  recommendation : Option String
deriving DecidableEq, Repr

/-- Comparator ordering of `(a, b) => date(b) - date(a)`: `a` may precede
`b` exactly when `b.date ≤ a.date`. -/
def dateGE (a b : WeightEntry) : Prop := b.date ≤ a.date

instance : DecidableRel dateGE := fun a b => inferInstanceAs (Decidable (b.date ≤ a.date))

instance : IsTotal WeightEntry dateGE := ⟨fun a b => le_total b.date a.date⟩

instance : IsTrans WeightEntry dateGE := ⟨fun _ _ _ hab hbc => le_trans hbc hab⟩

/-- Stable descending-by-date sort, the meaning of
`.sort((a, b) => new Date(b.date).getTime() - new Date(a.date).getTime())`. -/
def sortDesc (h : List WeightEntry) : List WeightEntry := List.insertionSort dateGE h

/-- `calculateWeeklyChange` (source lines 42–67): kg change over the last
week, prorated from the full span when no entry is a week old. -/
def calculateWeeklyChange (now : ℚ) (weightHistory : List WeightEntry) : ℚ :=
  if weightHistory.length < 2 then 0 else
  match sortDesc weightHistory with
  | [] => 0
  | recentEntry :: _ =>
    let weekAgo := now - 7
    match (sortDesc weightHistory).filter (fun e => decide (e.date ≤ weekAgo)) with
    | [] =>
      match (sortDesc weightHistory).getLast? with
      | none => 0
      | some oldestEntry =>
        let daysDiff := max 1 (recentEntry.date - oldestEntry.date)
        ((recentEntry.weight - oldestEntry.weight) / daysDiff) * 7
    | weekOldEntry :: _ => recentEntry.weight - weekOldEntry.weight

/-- The fixed goal-achieved alert of `checkWeightVelocity`. -/
def goalAchievedAlert (weeklyChange : ℚ) : WeightChangeAlert :=
  { type := .goal_achieved
    weeklyChange := weeklyChange
    message := "🎉 Parabéns! Você alcançou sua meta de peso!"
    recommendation := some "Considere definir uma nova meta ou entrar em modo de manutenção." }

/-- The fast-loss / fast-gain / slow-progress / on-track chain of
`checkWeightVelocity` (source lines 104–142), reached when the
goal-achieved check did not return. -/
def velocityChain (isLosing : Bool) (weeklyChange : ℚ) : WeightChangeAlert :=
  let absChange := |weeklyChange|
  if isLosing = true ∧ weeklyChange < -1 then
    { type := .fast_loss
      weeklyChange := weeklyChange
      message := "⚠️ Perda rápida detectada: " ++ toFixed1 absChange ++ "kg em uma semana"
      recommendation := some "Perda superior a 1kg/semana pode causar perda muscular e efeito rebote. Considere aumentar calorias em 200-300kcal." }
  else if isLosing = true ∧ weeklyChange > 1 / 2 then
    { type := .fast_gain
      weeklyChange := weeklyChange
      message := "📈 Ganho de " ++ toFixed1 absChange ++ "kg esta semana"
      recommendation := some "Verifique seus registros alimentares. Isso pode ser retenção de água ou variação normal." }
  else if isLosing = true ∧ weeklyChange > -(1 / 5) ∧ weeklyChange ≤ 0 then
    { type := .slow_progress
      weeklyChange := weeklyChange
      message := "Progresso lento detectado"
      recommendation := some "Considere revisar seu déficit calórico ou aumentar atividade física." }
  else
    { type := .on_track
      weeklyChange := weeklyChange
      message := if isLosing = true then
          "✅ Perda saudável: " ++ toFixed1 absChange ++ "kg esta semana"
        else
          "✅ Ganho saudável: " ++ toFixed1 absChange ++ "kg esta semana"
      recommendation := Option.none }

/-- `checkWeightVelocity` (source lines 72–142) together with the state of
the history array after the call: line 82 applies `.sort` to the caller's
array itself (no copy, unlike line 45), so a non-empty history comes back
sorted descending by date. -/
def checkWeightVelocityS (now : ℚ) (weightHistory : List WeightEntry)
    (weightGoal : WeightGoal) : WeightChangeAlert × List WeightEntry :=
  let weeklyChange := calculateWeeklyChange now weightHistory
  let isLosing : Bool := decide (weightGoal.targetWeight < weightGoal.startWeight)
  match sortDesc weightHistory with
  | [] => (velocityChain isLosing weeklyChange, weightHistory)
  | current :: rest =>
    if isLosing = true ∧ current.weight ≤ weightGoal.targetWeight then
      (goalAchievedAlert weeklyChange, current :: rest)
    else if isLosing = false ∧ weightGoal.targetWeight ≤ current.weight then
      (goalAchievedAlert weeklyChange, current :: rest)
    else
      (velocityChain isLosing weeklyChange, current :: rest)

/-- Value of `checkWeightVelocity` (ignoring the in-place sort effect). -/
def checkWeightVelocity (now : ℚ) (weightHistory : List WeightEntry)
    (weightGoal : WeightGoal) : WeightChangeAlert :=
  (checkWeightVelocityS now weightHistory weightGoal).1

/-- Result record of `shouldRecalculateCalories`. -/
structure RecalcResult where
  shouldRecalculate : Bool
  reason : String
deriving DecidableEq, Repr

/-- The plateau reason string of source line 177. -/
def plateauReason : String := "Possível platô detectado - peso estável há 4+ semanas"

/-- `shouldRecalculateCalories` (source lines 147–184): trigger on ≥2 kg
absolute drift, else on a 4-week stagnation read from the history. -/
def shouldRecalculateCalories (now : ℚ) (currentWeight lastCalculatedWeight : ℚ)
    (weightHistory : List WeightEntry) : RecalcResult :=
  let weightDiff := |currentWeight - lastCalculatedWeight|
  if 2 ≤ weightDiff then
    { shouldRecalculate := true
      reason := "Seu peso mudou " ++ toFixed1 weightDiff ++ "kg desde o último cálculo" }
  else if 4 ≤ weightHistory.length then
    let fourWeeksAgo := now - 28
    match (sortDesc weightHistory).filter (fun e => decide (e.date ≤ fourWeeksAgo)) with
    | [] => { shouldRecalculate := false, reason := "" }
    | oldest :: _ =>
      if |currentWeight - oldest.weight| < 1 / 2 then
        { shouldRecalculate := true, reason := plateauReason }
      else
        { shouldRecalculate := false, reason := "" }
  else { shouldRecalculate := false, reason := "" }

/-- `calculateUserCalories` (source lines 189–200): BMR → TDEE → goal. -/
def calculateUserCalories (N : Nutrition) (weight height age : ℚ) (gender : Gender)
    (activityLevel : ActivityLevel) (goal : Goal) : ℚ :=
  N.calculateCalorieGoal (N.calculateTDEE (N.calculateBMR weight height age gender) activityLevel) goal

/-- `getUserActivityLevel` (source lines 205–220): fixed alias table with
fallback to sedentary. -/
def getUserActivityLevel (user : User) : ActivityLevel :=
  match user.activityLevel with
  | some "sedentario" => .sedentario
  | some "leve" => .leve
  | some "moderado" => .moderado
  | some "ativo" => .intenso
  | some "intenso" => .intenso
  | some "muito_ativo" => .muito_intenso
  | some "muito_intenso" => .muito_intenso
  | _ => .sedentario

/-- `getUserGoal` (source lines 225–231): valid goals pass through, else
maintain. -/
def getUserGoal (user : User) : Goal :=
  match user.goal with
  | some "perder_peso" => .perder_peso
  | some "manter_peso" => .manter_peso
  | some "ganhar_massa" => .ganhar_massa
  | _ => .manter_peso

/-- The obesity-adjusted weight `analyze` computes when the recalculation
trigger fires (source lines 319–323). -/
def analyzeAdjustedWeight (N : Nutrition) (user : User) (weightGoal : WeightGoal) : ℚ :=
  (N.calculateAdjustedWeight (jsOrQ user.weight 70) weightGoal.targetWeight
    (jsOrQ user.height 170)).weightForCalc

/-- The no-active-goal / no-adjustment-needed record of `analyze`. -/
def noActiveGoalResult (user : User) : CalorieAdjustment :=
  { shouldAdjust := false
    reason := .none
    previousGoal := user.dailyCalorieGoal
    suggestedGoal := user.dailyCalorieGoal
    difference := 0
    message := "Nenhuma meta de peso ativa"
    severity := .info }

/-- `analyzeCalorieAdjustment` (source lines 236–375) together with the
state of the history array after the call (mutated only by the in-place
sort inside `checkWeightVelocity`). -/
def analyzeCalorieAdjustmentS (N : Nutrition) (now : ℚ) (user : User)
    (weightHistory : List WeightEntry) (lastCalculatedWeight : Option ℚ) :
    CalorieAdjustment × List WeightEntry :=
  let currentWeight := jsOrQ user.weight 70
  let previousWeight := jsOrQ lastCalculatedWeight currentWeight
  match user.weightGoal with
  | none => (noActiveGoalResult user, weightHistory)
  | some weightGoal =>
    if weightGoal.status ≠ GoalStatus.active then (noActiveGoalResult user, weightHistory)
    else
      let va := checkWeightVelocityS now weightHistory weightGoal
      let velocityAlert := va.1
      let h1 := va.2
      if velocityAlert.type = AlertType.goal_achieved then
        let maintenanceCalories := calculateUserCalories N currentWeight
          (jsOrQ user.height 170) (jsOrQ user.age 30) (user.gender.getD .masculino)
          (getUserActivityLevel user) .manter_peso
        ({ shouldAdjust := true
           reason := .goal_achieved
           previousGoal := user.dailyCalorieGoal
           suggestedGoal := maintenanceCalories
           difference := maintenanceCalories - user.dailyCalorieGoal
           message := "🎉 Meta alcançada! Transitando para modo manutenção."
           severity := .success }, h1)
      else
        let t := shouldRecalculateCalories now currentWeight previousWeight h1
        if t.shouldRecalculate = false then
          if velocityAlert.type = AlertType.fast_loss then
            ({ shouldAdjust := true
               reason := .fast_loss
               previousGoal := user.dailyCalorieGoal
               suggestedGoal := user.dailyCalorieGoal + 250
               difference := 250
               message := velocityAlert.recommendation.getD "Considere aumentar calorias"
               severity := .warning }, h1)
          else
            ({ shouldAdjust := false
               reason := .none
               previousGoal := user.dailyCalorieGoal
               suggestedGoal := user.dailyCalorieGoal
               difference := 0
               message := "Suas metas estão adequadas"
               severity := .info }, h1)
        else
          let adjustedWeight := analyzeAdjustedWeight N user weightGoal
          let newCalorieGoal := calculateUserCalories N adjustedWeight
            (jsOrQ user.height 170) (jsOrQ user.age 30) (user.gender.getD .masculino)
            (getUserActivityLevel user) (getUserGoal user)
          let difference := newCalorieGoal - user.dailyCalorieGoal
          if jsIncludes t.reason "platô" = true then
            let estimatedDeficit : ℚ := (jsRound (user.dailyCalorieGoal * (1 / 5)) : ℤ)
            let plateauAnalysis := N.detectPlateau h1 user.dailyCalorieGoal estimatedDeficit
            if plateauAnalysis.suggestion = "maintenance_week" then
              ({ shouldAdjust := true
                 reason := .plateau_detected
                 previousGoal := user.dailyCalorieGoal
                 suggestedGoal := user.dailyCalorieGoal + 300
                 difference := 300
                 message := "🔄 Platô detectado. Sugerimos uma semana de manutenção para resetar o metabolismo."
                 severity := .warning }, h1)
            else
              ({ shouldAdjust := true
                 reason := .plateau_detected
                 previousGoal := user.dailyCalorieGoal
                 suggestedGoal := newCalorieGoal - 100
                 difference := (newCalorieGoal - 100) - user.dailyCalorieGoal
                 message := plateauAnalysis.message
                 severity := .warning }, h1)
          else
            ({ shouldAdjust := true
               reason := .weight_changed
               previousGoal := user.dailyCalorieGoal
               suggestedGoal := newCalorieGoal
               difference := difference
               message := t.reason ++ ". Novas metas calculadas."
               severity := .info }, h1)

/-- Value of `analyzeCalorieAdjustment` (ignoring the in-place sort). -/
def analyzeCalorieAdjustment (N : Nutrition) (now : ℚ) (user : User)
    (weightHistory : List WeightEntry) (lastCalculatedWeight : Option ℚ) :
    CalorieAdjustment :=
  (analyzeCalorieAdjustmentS N now user weightHistory lastCalculatedWeight).1

/-- The protein/fat reference weight of `recalculateMacrosForAdjustment`
(source lines 385–394): adjusted whenever a weight goal is present, raw
profile weight otherwise. -/
def recalcProteinWeight (N : Nutrition) (user : User) : ℚ :=
  match user.weightGoal with
  | none => jsOrQ user.weight 70
  | some weightGoal =>
    (N.calculateAdjustedWeight (jsOrQ user.weight 70) weightGoal.targetWeight
      (jsOrQ user.height 170)).weightForCalc

/-- Macro triple returned by `recalculateMacrosForAdjustment`. -/
structure MacroTriple where
  protein : ℚ
  carbs : ℚ
  fats : ℚ
deriving DecidableEq, Repr

/-- `recalculateMacrosForAdjustment` (source lines 380–406). -/
def recalculateMacrosForAdjustment (N : Nutrition) (newCalorieGoal : ℚ)
    (user : User) : MacroTriple :=
  let proteinWeight := recalcProteinWeight N user
  let goal := getUserGoal user
  let protein := N.calculateProtein proteinWeight goal user.isClinicalMode
  let fats := N.calculateFat proteinWeight
  let carbResult := N.calculateCarbs newCalorieGoal protein fats
  { protein := protein, carbs := carbResult.carbGrams, fats := fats }

/-- Spec-side plateau condition for the trigger, stated without reference
to the implementation's sort: at least 4 entries, and some entry at or
before `now - 28` whose date is maximal among such entries and whose
weight is within 0.5 kg of the current weight. -/
def plateauSpec (now cur : ℚ) (h : List WeightEntry) : Prop :=
  4 ≤ h.length ∧
    ∃ e ∈ h, e.date ≤ now - 28 ∧
      (∀ e2 ∈ h, e2.date ≤ now - 28 → e2.date ≤ e.date) ∧
      |cur - e.weight| < 1 / 2

/-- Modelled from the spec: a sample instantiation of the collaborator
bundle (§6), used only to evaluate the parametric embedding at concrete
inputs.  The formulas follow the documented signatures and the glossary's
description of the obesity adjustment (a substitute weight, below the real
one, for users far above their target); they are not source code of this
repository. -/
def sampleNutrition : Nutrition where
  calculateBMR := fun w ht a g =>
    10 * w + 25 / 4 * ht - 5 * a +
      (match g with
       | .masculino => 5
       | .feminino => -161
       | .outro => -78)
  calculateTDEE := fun bmr al =>
    bmr * (match al with
      | .sedentario => 6 / 5
      | .leve => 11 / 8
      | .moderado => 31 / 20
      | .intenso => 69 / 40
      | .muito_intenso => 19 / 10)
  calculateCalorieGoal := fun tdee g =>
    tdee + (match g with
      | .perder_peso => -500
      | .manter_peso => 0
      | .ganhar_massa => 400)
  calculateAdjustedWeight := fun w target ht =>
    if 30 * (ht / 100) ^ 2 ≤ w then ⟨target + (w - target) / 4⟩ else ⟨w⟩
  calculateProtein := fun w g clinical =>
    w * (if clinical then 3 / 2 else match g with
      | .perder_peso => 2
      | .manter_peso => 8 / 5
      | .ganhar_massa => 11 / 5)
  calculateFat := fun w => w
  calculateCarbs := fun cal p f => ⟨(cal - 4 * p - 9 * f) / 4⟩
  detectPlateau := fun _ _ _ =>
    ⟨"maintenance_week", "Platô detectado: sugerimos uma semana de manutenção"⟩

/-- Weight entry with only the fields the service reads. -/
def mkEntry (d w : ℚ) : WeightEntry :=
  { id := "", userId := "", weight := w, date := d, createdAt := 0 }

/-- A profile with an active losing goal (90 → 75 kg) used to evaluate
concrete runs of the service. -/
def sampleUser : User :=
  { weight := some 80
    height := some 170
    age := some 30
    gender := some .masculino
    activityLevel := some "moderado"
    goal := some "perder_peso"
    dailyCalorieGoal := 2000
    isClinicalMode := false
    weightGoal := some ⟨90, 75, 0, .active⟩ }

/-- Four-entry history, flat at 80 kg, with three entries older than four
weeks when evaluated at `now = 100`. -/
def plateauHist : List WeightEntry :=
  [mkEntry 0 80, mkEntry 1 80, mkEntry 2 80, mkEntry 99 80]

/-- History exercising the trigger's choice of comparison entry at
`now = 100`: two entries older than 28 days (dates 40 and 70, weights 85
and 80.1) and two recent ones at 80. -/
def twoOldHist : List WeightEntry :=
  [mkEntry 40 85, mkEntry 70 (801 / 10), mkEntry 99 80, mkEntry 100 80]

/-- An obese profile (130 kg, 1.70 m) whose weight goal is present but no
longer active. -/
def inactiveGoalUser : User :=
  { weight := some 130
    height := some 170
    age := some 30
    gender := some .masculino
    activityLevel := some "moderado"
    goal := some "perder_peso"
    dailyCalorieGoal := 2000
    isClinicalMode := false
    weightGoal := some ⟨95, 80, 0, .achieved⟩ }

/-- The same profile with no weight goal at all. -/
def noGoalUser : User :=
  { inactiveGoalUser with weightGoal := Option.none }

/-- Two-entry history given in ascending date order. -/
def ascendingHist : List WeightEntry :=
  [mkEntry 0 81, mkEntry 1 80]

/-- Two-entry history producing a −1.5 kg weekly change at `now = 10`
(latest 80.5 kg, week-old reference 82 kg). -/
def fastLossHist : List WeightEntry :=
  [mkEntry 0 82, mkEntry 9 (161 / 2)]

/-- Two-entry history producing a −0.1 kg weekly change at `now = 10`
(latest 79.9 kg, week-old reference 80 kg). -/
def slowHist : List WeightEntry :=
  [mkEntry 0 80, mkEntry 9 (799 / 10)]

/-! Facts about the stable descending sort shared by the service's three
sort-then-scan passes. -/

lemma sortDesc_perm (h : List WeightEntry) : (sortDesc h).Perm h :=
  List.perm_insertionSort dateGE h

lemma mem_sortDesc {e : WeightEntry} {h : List WeightEntry} :
    e ∈ sortDesc h ↔ e ∈ h :=
  List.mem_insertionSort dateGE

lemma sortDesc_length (h : List WeightEntry) : (sortDesc h).length = h.length :=
  (sortDesc_perm h).length_eq

lemma sortDesc_sorted (h : List WeightEntry) : List.Sorted dateGE (sortDesc h) :=
  List.sorted_insertionSort dateGE h

lemma sortDesc_idem (h : List WeightEntry) : sortDesc (sortDesc h) = sortDesc h :=
  (sortDesc_sorted h).insertionSort_eq

lemma sortDesc_eq_nil_iff {h : List WeightEntry} : sortDesc h = [] ↔ h = [] := by
  constructor
  · intro he
    have := sortDesc_length h
    rw [he] at this
    exact List.length_eq_zero.mp this.symm
  · intro he
    subst he
    rfl

/-- The head of the descending sort carries a maximal date. -/
lemma head_sortDesc_max {h : List WeightEntry} {f : WeightEntry} {t : List WeightEntry}
    (he : sortDesc h = f :: t) : f ∈ h ∧ ∀ e ∈ h, e.date ≤ f.date := by
  have hs : List.Pairwise dateGE (f :: t) := he ▸ sortDesc_sorted h
  constructor
  · exact mem_sortDesc.mp (he ▸ List.mem_cons_self f t)
  · intro e hemem
    have : e ∈ f :: t := he ▸ mem_sortDesc.mpr hemem
    rcases List.mem_cons.mp this with heq | htl
    · exact le_of_eq (congrArg WeightEntry.date heq)
    · exact List.rel_of_pairwise_cons hs htl

/-- The head of the filtered descending sort is an entry at or before the
cutoff with a maximal date among such entries. -/
lemma filter_sortDesc_head {h : List WeightEntry} {cutoff : ℚ} {f : WeightEntry}
    {t : List WeightEntry}
    (he : (sortDesc h).filter (fun e => decide (e.date ≤ cutoff)) = f :: t) :
    f ∈ h ∧ f.date ≤ cutoff ∧ ∀ e ∈ h, e.date ≤ cutoff → e.date ≤ f.date := by
  have hpw : List.Pairwise dateGE ((sortDesc h).filter (fun e => decide (e.date ≤ cutoff))) :=
    (sortDesc_sorted h).filter _
  rw [he] at hpw
  have hfmem : f ∈ (sortDesc h).filter (fun e => decide (e.date ≤ cutoff)) :=
    he ▸ List.mem_cons_self f t
  have hf := List.mem_filter.mp hfmem
  refine ⟨mem_sortDesc.mp hf.1, by simpa using hf.2, ?_⟩
  intro e hemem hecut
  have : e ∈ (sortDesc h).filter (fun e => decide (e.date ≤ cutoff)) :=
    List.mem_filter.mpr ⟨mem_sortDesc.mpr hemem, by simpa using hecut⟩
  rw [he] at this
  rcases List.mem_cons.mp this with heq | htl
  · exact le_of_eq (congrArg WeightEntry.date heq)
  · exact List.rel_of_pairwise_cons hpw htl

/-- An empty filtered descending sort means no entry is at or before the
cutoff. -/
lemma filter_sortDesc_nil {h : List WeightEntry} {cutoff : ℚ}
    (he : (sortDesc h).filter (fun e => decide (e.date ≤ cutoff)) = []) :
    ∀ e ∈ h, ¬ e.date ≤ cutoff := by
  intro e hemem
  have := List.filter_eq_nil_iff.mp he e (mem_sortDesc.mpr hemem)
  simpa using this

/-- The last element of the descending sort carries a minimal date. -/
lemma getLast_sortDesc_min {h : List WeightEntry} {f : WeightEntry}
    (he : (sortDesc h).getLast? = some f) : f ∈ h ∧ ∀ e ∈ h, f.date ≤ e.date := by
  rw [← List.head?_reverse] at he
  have hpw : List.Pairwise (fun a b => dateGE b a) (sortDesc h).reverse :=
    List.pairwise_reverse.mpr (sortDesc_sorted h)
  rcases hrev : (sortDesc h).reverse with _ | ⟨a, tr⟩
  · rw [hrev] at he
    exact absurd he (by simp)
  · rw [hrev] at he hpw
    have haf : a = f := by simpa using he
    subst haf
    constructor
    · exact mem_sortDesc.mp (List.mem_reverse.mp (hrev ▸ List.mem_cons_self a tr))
    · intro e hemem
      have : e ∈ a :: tr := hrev ▸ List.mem_reverse.mpr (mem_sortDesc.mpr hemem)
      rcases List.mem_cons.mp this with heq | htl
      · exact le_of_eq (congrArg WeightEntry.date heq.symm)
      · exact List.rel_of_pairwise_cons hpw htl

/-- `shouldRecalculateCalories` only consumes its history through the
stable sort, so feeding it the sorted array (as `analyze` does after the
in-place sort inside `checkWeightVelocity`) changes nothing. -/
lemma shouldRecalculateCalories_sortDesc (now c l : ℚ) (h : List WeightEntry) :
    shouldRecalculateCalories now c l (sortDesc h) = shouldRecalculateCalories now c l h := by
  simp only [shouldRecalculateCalories, sortDesc_idem, sortDesc_length]

/-- The post-call state of the history array after `checkWeightVelocity`
is its stable descending sort (for an empty history the sort is not even
invoked, but the empty array is its own sort). -/
lemma checkWeightVelocityS_snd (now : ℚ) (h : List WeightEntry) (g : WeightGoal) :
    (checkWeightVelocityS now h g).2 = sortDesc h := by
  rcases hs : sortDesc h with _ | ⟨c, rest⟩
  · have h0 : h = [] := sortDesc_eq_nil_iff.mp hs
    simp only [checkWeightVelocityS, hs, h0]
    rfl
  · simp only [checkWeightVelocityS, hs]
    split_ifs <;> rfl

/-- When an active goal is present, every branch of `analyze` returns the
history in the state left by `checkWeightVelocity`: sorted descending. -/
lemma analyzeS_snd_active (N : Nutrition) (now : ℚ) (u : User)
    (h : List WeightEntry) (lcw : Option ℚ) (g : WeightGoal)
    (hg : u.weightGoal = some g) (hact : g.status = GoalStatus.active) :
    (analyzeCalorieAdjustmentS N now u h lcw).2 = sortDesc h := by
  have hs := checkWeightVelocityS_snd now h g
  unfold analyzeCalorieAdjustmentS
  simp only [hg]
  rw [if_neg (fun hne => hne hact)]
  split_ifs <;> simp [hs]

/-- C5: with no weight goal, or a weight goal whose status is not active,
`analyze` returns no adjustment: `should_adjust = false`, reason `none`,
severity `info`, suggested goal equal to the profile's daily calorie goal
and difference 0, regardless of the history. -/
theorem analyze_no_active_goal (N : Nutrition) (now : ℚ) (u : User)
    (h : List WeightEntry) (lcw : Option ℚ)
    (hg : u.weightGoal = Option.none ∨
      ∃ g, u.weightGoal = some g ∧ g.status ≠ GoalStatus.active) :
    (analyzeCalorieAdjustment N now u h lcw).shouldAdjust = false ∧
    (analyzeCalorieAdjustment N now u h lcw).reason = AdjustReason.none ∧
    (analyzeCalorieAdjustment N now u h lcw).severity = Severity.info ∧
    (analyzeCalorieAdjustment N now u h lcw).suggestedGoal = u.dailyCalorieGoal ∧
    (analyzeCalorieAdjustment N now u h lcw).previousGoal = u.dailyCalorieGoal ∧
    (analyzeCalorieAdjustment N now u h lcw).difference = 0 := by
  rcases hg with hnone | ⟨g, hsome, hstat⟩
  · simp [analyzeCalorieAdjustment, analyzeCalorieAdjustmentS, hnone, noActiveGoalResult]
  · simp [analyzeCalorieAdjustment, analyzeCalorieAdjustmentS, hsome, hstat, noActiveGoalResult]

/-- Witness for C5 at a concrete inactive-goal profile. -/
theorem analyze_no_active_goal_app :
    (analyzeCalorieAdjustment sampleNutrition 0 inactiveGoalUser plateauHist Option.none).shouldAdjust = false ∧
    (analyzeCalorieAdjustment sampleNutrition 0 inactiveGoalUser plateauHist Option.none).reason = AdjustReason.none := by
  have h := analyze_no_active_goal sampleNutrition 0 inactiveGoalUser plateauHist Option.none
    (Or.inr ⟨⟨95, 80, 0, .achieved⟩, rfl, by decide⟩)
  exact ⟨h.1, h.2.1⟩

/-- C2 counterexample: a profile whose weight goal exists but is no longer
active.  The claim predicts the raw profile weight (130 kg); the code still
routes through the obesity adjustment (92.5 kg with the sample
collaborator), because line 387 tests goal presence, not active status. -/
theorem recalcProteinWeight_inactive_goal_cex :
    inactiveGoalUser.weightGoal = some ⟨95, 80, 0, GoalStatus.achieved⟩ ∧
    GoalStatus.achieved ≠ GoalStatus.active ∧
    jsOrQ inactiveGoalUser.weight 70 = 130 ∧
    recalcProteinWeight sampleNutrition inactiveGoalUser = 185 / 2 ∧
    (185 / 2 : ℚ) ≠ 130 := by
  refine ⟨rfl, by decide, by norm_num [inactiveGoalUser, jsOrQ], ?_, by norm_num⟩
  norm_num [recalcProteinWeight, inactiveGoalUser, sampleNutrition, jsOrQ]

/-- C2 (amended): `recompute_macros` uses the obesity-adjusted weight —
the same `calculateAdjustedWeight(current, target, height)` value that
`analyze` computes — whenever the profile has a weight goal of any status,
and the raw profile weight only when no weight goal exists at all. -/
theorem recalcProteinWeight_goal_presence (N : Nutrition) (u : User) :
    (∀ g, u.weightGoal = some g →
      recalcProteinWeight N u = analyzeAdjustedWeight N u g) ∧
    (u.weightGoal = Option.none → recalcProteinWeight N u = jsOrQ u.weight 70) := by
  constructor
  · intro g hgoal
    simp [recalcProteinWeight, analyzeAdjustedWeight, hgoal]
  · intro hnone
    simp [recalcProteinWeight, hnone]

/-- Witness for the amended C2 at concrete profiles with and without a
weight goal. -/
theorem recalcProteinWeight_goal_presence_app :
    recalcProteinWeight sampleNutrition inactiveGoalUser =
      analyzeAdjustedWeight sampleNutrition inactiveGoalUser ⟨95, 80, 0, GoalStatus.achieved⟩ ∧
    recalcProteinWeight sampleNutrition noGoalUser = jsOrQ noGoalUser.weight 70 :=
  ⟨(recalcProteinWeight_goal_presence sampleNutrition inactiveGoalUser).1 _ rfl,
   (recalcProteinWeight_goal_presence sampleNutrition noGoalUser).2 rfl⟩

/-- C7: for a non-empty history (its most recent entry being `current`),
if the goal is losing (`start > target`) and `current.weight ≤ target`, or
the goal is gaining and `current.weight ≥ target`, the classifier returns
`goal_achieved`, ahead of every velocity check. -/
theorem velocity_goal_achieved_first (now : ℚ) (h : List WeightEntry)
    (g : WeightGoal) (current : WeightEntry)
    (hnd : (h.map WeightEntry.date).Nodup)
    (hmem : current ∈ h) (hmax : ∀ e ∈ h, e.date ≤ current.date)
    (hach : (g.targetWeight < g.startWeight ∧ current.weight ≤ g.targetWeight) ∨
      (¬ g.targetWeight < g.startWeight ∧ g.targetWeight ≤ current.weight)) :
    (checkWeightVelocity now h g).type = AlertType.goal_achieved := by
  rcases hs : sortDesc h with _ | ⟨f, t⟩
  · have h0 : h = [] := sortDesc_eq_nil_iff.mp hs
    rw [h0] at hmem
    exact absurd hmem (List.not_mem_nil current)
  · obtain ⟨hfmem, hfmax⟩ := head_sortDesc_max hs
    have hef : f = current :=
      List.inj_on_of_nodup_map hnd hfmem hmem
        (le_antisymm (hmax f hfmem) (hfmax current hmem))
    subst hef
    simp only [checkWeightVelocity, checkWeightVelocityS, hs, decide_eq_true_eq,
      decide_eq_false_iff_not]
    rcases hach with ⟨hl, hw⟩ | ⟨hnl, hw⟩
    · rw [if_pos ⟨hl, hw⟩]
      rfl
    · rw [if_neg (fun hc => hnl hc.1), if_pos ⟨hnl, hw⟩]
      rfl

/-- Witness for C7: a single-entry history at exactly the target weight of
a losing goal. -/
theorem velocity_goal_achieved_first_app :
    (checkWeightVelocity 10 [mkEntry 5 75] ⟨90, 75, 0, .active⟩).type =
      AlertType.goal_achieved :=
  velocity_goal_achieved_first 10 [mkEntry 5 75] ⟨90, 75, 0, .active⟩ (mkEntry 5 75)
    (by decide) (by decide)
    (by
      intro e he
      simp only [List.mem_singleton] at he
      subst he
      exact le_refl _)
    (Or.inl ⟨by norm_num, by norm_num [mkEntry]⟩)

/-- C8: for a losing goal whose target has not been reached by the most
recent weight, a weekly change below −1.0 kg classifies as `fast_loss`,
and a weekly change in the half-open interval (−0.2, 0] classifies as
`slow_progress`. -/
theorem velocity_losing_thresholds (now : ℚ) (h : List WeightEntry)
    (g : WeightGoal) (current : WeightEntry)
    (hnd : (h.map WeightEntry.date).Nodup)
    (hmem : current ∈ h) (hmax : ∀ e ∈ h, e.date ≤ current.date)
    (hlose : g.targetWeight < g.startWeight)
    (hnot : g.targetWeight < current.weight) :
    (calculateWeeklyChange now h < -1 →
      (checkWeightVelocity now h g).type = AlertType.fast_loss) ∧
    (-(1 / 5) < calculateWeeklyChange now h ∧ calculateWeeklyChange now h ≤ 0 →
      (checkWeightVelocity now h g).type = AlertType.slow_progress) := by
  rcases hs : sortDesc h with _ | ⟨f, t⟩
  · have h0 : h = [] := sortDesc_eq_nil_iff.mp hs
    rw [h0] at hmem
    exact absurd hmem (List.not_mem_nil current)
  · obtain ⟨hfmem, hfmax⟩ := head_sortDesc_max hs
    have hef : f = current :=
      List.inj_on_of_nodup_map hnd hfmem hmem
        (le_antisymm (hmax f hfmem) (hfmax current hmem))
    subst hef
    simp only [checkWeightVelocity, checkWeightVelocityS, hs, decide_eq_true_eq,
      decide_eq_false_iff_not]
    rw [if_neg (fun hc => absurd hc.2 (not_le.mpr hnot)),
      if_neg (fun hc => hc.1 hlose)]
    constructor
    · intro hfl
      simp only [velocityChain, decide_eq_true_eq]
      rw [if_pos ⟨hlose, hfl⟩]
    · rintro ⟨hsl, hsu⟩
      have hgt : (-1 : ℚ) < calculateWeeklyChange now h :=
        lt_trans (by norm_num) hsl
      simp only [velocityChain, decide_eq_true_eq]
      rw [if_neg (fun hc => absurd hc.2 (not_lt.mpr (le_of_lt hgt))),
        if_neg (fun hc => absurd hc.2 (not_lt.mpr (le_trans hsu (by norm_num)))),
        if_pos ⟨hlose, hsl, hsu⟩]

/-- Witness for C8: a −1.5 kg/week history classifies as fast loss, and a
−0.1 kg/week history as slow progress, under the same losing goal. -/
theorem velocity_losing_thresholds_app :
    (checkWeightVelocity 10 fastLossHist ⟨90, 75, 0, .active⟩).type =
      AlertType.fast_loss ∧
    (checkWeightVelocity 10 slowHist ⟨90, 75, 0, .active⟩).type =
      AlertType.slow_progress := by
  constructor
  · refine (velocity_losing_thresholds 10 fastLossHist ⟨90, 75, 0, .active⟩
      (mkEntry 9 (161 / 2)) (by decide) (by simp [fastLossHist]) ?_ (by norm_num)
      (by norm_num [mkEntry])).1 ?_
    · intro e he
      simp only [fastLossHist, List.mem_cons, List.mem_singleton,
        List.not_mem_nil, or_false] at he
      rcases he with rfl | rfl <;> norm_num [mkEntry]
    · norm_num [calculateWeeklyChange, fastLossHist, sortDesc, List.insertionSort,
        List.orderedInsert, dateGE, mkEntry]
  · refine (velocity_losing_thresholds 10 slowHist ⟨90, 75, 0, .active⟩
      (mkEntry 9 (799 / 10)) (by decide) (by simp [slowHist]) ?_ (by norm_num)
      (by norm_num [mkEntry])).2 ?_
    · intro e he
      simp only [slowHist, List.mem_cons, List.mem_singleton,
        List.not_mem_nil, or_false] at he
      rcases he with rfl | rfl <;> norm_num [mkEntry]
    · constructor <;>
        norm_num [calculateWeeklyChange, slowHist, sortDesc, List.insertionSort,
          List.orderedInsert, dateGE, mkEntry]

/-- C10: every branch of `analyze` returns `previous_goal` equal to the
profile's daily calorie goal and `difference = suggested_goal -
previous_goal`; hence a non-adjusting result keeps the suggested goal at
the previous goal with difference 0. -/
theorem analyze_result_invariants (N : Nutrition) (now : ℚ) (u : User)
    (h : List WeightEntry) (lcw : Option ℚ) :
    (analyzeCalorieAdjustment N now u h lcw).previousGoal = u.dailyCalorieGoal ∧
    (analyzeCalorieAdjustment N now u h lcw).difference =
      (analyzeCalorieAdjustment N now u h lcw).suggestedGoal -
        (analyzeCalorieAdjustment N now u h lcw).previousGoal ∧
    ((analyzeCalorieAdjustment N now u h lcw).shouldAdjust = false →
      (analyzeCalorieAdjustment N now u h lcw).suggestedGoal =
        (analyzeCalorieAdjustment N now u h lcw).previousGoal ∧
      (analyzeCalorieAdjustment N now u h lcw).difference = 0) := by
  unfold analyzeCalorieAdjustment analyzeCalorieAdjustmentS
  rcases hw : u.weightGoal with _ | g
  · simp [noActiveGoalResult]
  · simp only [hw]
    split_ifs <;> simp [noActiveGoalResult]

/-- Witness for C10 at a concrete non-adjusting run. -/
theorem analyze_result_invariants_app :
    (analyzeCalorieAdjustment sampleNutrition 0 noGoalUser [] Option.none).suggestedGoal =
      (analyzeCalorieAdjustment sampleNutrition 0 noGoalUser [] Option.none).previousGoal ∧
    (analyzeCalorieAdjustment sampleNutrition 0 noGoalUser [] Option.none).difference = 0 :=
  (analyze_result_invariants sampleNutrition 0 noGoalUser [] Option.none).2.2 rfl

/-- C6: with an active goal, no goal-achieved alert and no recalculation
trigger, `analyze` bumps the goal by a flat 250 kcal on a fast-loss alert
and otherwise returns no adjustment. -/
theorem analyze_no_trigger_velocity (N : Nutrition) (now : ℚ) (u : User)
    (h : List WeightEntry) (lcw : Option ℚ) (g : WeightGoal)
    (hg : u.weightGoal = some g) (hact : g.status = GoalStatus.active)
    (hvna : (checkWeightVelocity now h g).type ≠ AlertType.goal_achieved)
    (hnt : (shouldRecalculateCalories now (jsOrQ u.weight 70)
      (jsOrQ lcw (jsOrQ u.weight 70)) h).shouldRecalculate = false) :
    ((checkWeightVelocity now h g).type = AlertType.fast_loss →
      (analyzeCalorieAdjustment N now u h lcw).shouldAdjust = true ∧
      (analyzeCalorieAdjustment N now u h lcw).reason = AdjustReason.fast_loss ∧
      (analyzeCalorieAdjustment N now u h lcw).suggestedGoal = u.dailyCalorieGoal + 250 ∧
      (analyzeCalorieAdjustment N now u h lcw).difference = 250 ∧
      (analyzeCalorieAdjustment N now u h lcw).severity = Severity.warning) ∧
    ((checkWeightVelocity now h g).type ≠ AlertType.fast_loss →
      (analyzeCalorieAdjustment N now u h lcw).shouldAdjust = false ∧
      (analyzeCalorieAdjustment N now u h lcw).reason = AdjustReason.none ∧
      (analyzeCalorieAdjustment N now u h lcw).severity = Severity.info) := by
  have hsnd := checkWeightVelocityS_snd now h g
  have hinv := shouldRecalculateCalories_sortDesc now (jsOrQ u.weight 70)
    (jsOrQ lcw (jsOrQ u.weight 70)) h
  unfold analyzeCalorieAdjustment analyzeCalorieAdjustmentS
  simp only [hg]
  rw [if_neg (fun hne => hne hact)]
  rw [hsnd, hinv]
  rw [if_neg (show ¬ (checkWeightVelocityS now h g).1.type = AlertType.goal_achieved from hvna)]
  rw [if_pos hnt]
  constructor
  · intro hfl
    rw [if_pos (show (checkWeightVelocityS now h g).1.type = AlertType.fast_loss from hfl)]
    exact ⟨rfl, rfl, rfl, rfl, rfl⟩
  · intro hnfl
    rw [if_neg (show ¬ (checkWeightVelocityS now h g).1.type = AlertType.fast_loss from hnfl)]
    exact ⟨rfl, rfl, rfl⟩

/-- Witness for C6: a fast-loss history with no trigger yields the flat
+250 kcal suggestion. -/
theorem analyze_no_trigger_velocity_app :
    (analyzeCalorieAdjustment sampleNutrition 10 sampleUser fastLossHist Option.none).reason =
      AdjustReason.fast_loss ∧
    (analyzeCalorieAdjustment sampleNutrition 10 sampleUser fastLossHist Option.none).suggestedGoal =
      2250 := by
  have hfl : (checkWeightVelocity 10 fastLossHist ⟨90, 75, 0, .active⟩).type =
      AlertType.fast_loss := by
    norm_num [checkWeightVelocity, checkWeightVelocityS, velocityChain,
      calculateWeeklyChange, sortDesc, List.insertionSort, List.orderedInsert,
      dateGE, fastLossHist, mkEntry, goalAchievedAlert]
  have h := (analyze_no_trigger_velocity sampleNutrition 10 sampleUser fastLossHist
    Option.none ⟨90, 75, 0, .active⟩ rfl rfl
    (by rw [hfl]; decide)
    (by norm_num [shouldRecalculateCalories, fastLossHist, sampleUser, jsOrQ])).1 hfl
  refine ⟨h.2.1, ?_⟩
  rw [h.2.2.1]
  norm_num [sampleUser]

/-- C4: when `analyze` reaches the recalculation trigger with a plateau
reason and the external plateau detector suggests a maintenance week, the
result is `should_adjust = true`, reason `plateau_detected`, suggested
goal exactly `previous_goal + 300`, difference 300 and severity `warning`,
overriding the freshly recomputed calorie goal (the conclusion holds for
every collaborator bundle `N`, so the recomputed value never shows up). -/
theorem analyze_plateau_maintenance_week (N : Nutrition) (now : ℚ) (u : User)
    (h : List WeightEntry) (lcw : Option ℚ) (g : WeightGoal)
    (hg : u.weightGoal = some g) (hact : g.status = GoalStatus.active)
    (hvna : (checkWeightVelocity now h g).type ≠ AlertType.goal_achieved)
    (htrig : (shouldRecalculateCalories now (jsOrQ u.weight 70)
      (jsOrQ lcw (jsOrQ u.weight 70)) h).shouldRecalculate = true)
    (hplat : jsIncludes (shouldRecalculateCalories now (jsOrQ u.weight 70)
      (jsOrQ lcw (jsOrQ u.weight 70)) h).reason "platô" = true)
    (hdp : (N.detectPlateau (sortDesc h) u.dailyCalorieGoal
      ((jsRound (u.dailyCalorieGoal * (1 / 5)) : ℤ) : ℚ)).suggestion = "maintenance_week") :
    (analyzeCalorieAdjustment N now u h lcw).shouldAdjust = true ∧
    (analyzeCalorieAdjustment N now u h lcw).reason = AdjustReason.plateau_detected ∧
    (analyzeCalorieAdjustment N now u h lcw).previousGoal = u.dailyCalorieGoal ∧
    (analyzeCalorieAdjustment N now u h lcw).suggestedGoal = u.dailyCalorieGoal + 300 ∧
    (analyzeCalorieAdjustment N now u h lcw).difference = 300 ∧
    (analyzeCalorieAdjustment N now u h lcw).severity = Severity.warning := by
  have hsnd := checkWeightVelocityS_snd now h g
  have hinv := shouldRecalculateCalories_sortDesc now (jsOrQ u.weight 70)
    (jsOrQ lcw (jsOrQ u.weight 70)) h
  unfold analyzeCalorieAdjustment analyzeCalorieAdjustmentS
  simp only [hg]
  rw [if_neg (fun hne => hne hact)]
  rw [hsnd, hinv]
  rw [if_neg (show ¬ (checkWeightVelocityS now h g).1.type = AlertType.goal_achieved from hvna)]
  rw [if_neg (show ¬ (shouldRecalculateCalories now (jsOrQ u.weight 70)
    (jsOrQ lcw (jsOrQ u.weight 70)) h).shouldRecalculate = false by rw [htrig]; decide)]
  rw [if_pos hplat]
  rw [if_pos hdp]
  exact ⟨rfl, rfl, rfl, rfl, rfl, rfl⟩

/-- Witness for C4: a flat four-entry history that trips the plateau
trigger under the sample collaborators (whose detector suggests a
maintenance week) yields exactly 2000 + 300 kcal. -/
theorem analyze_plateau_maintenance_week_app :
    (analyzeCalorieAdjustment sampleNutrition 100 sampleUser plateauHist Option.none).reason =
      AdjustReason.plateau_detected ∧
    (analyzeCalorieAdjustment sampleNutrition 100 sampleUser plateauHist Option.none).suggestedGoal =
      2300 := by
  have htr : shouldRecalculateCalories 100 (jsOrQ sampleUser.weight 70)
      (jsOrQ Option.none (jsOrQ sampleUser.weight 70)) plateauHist =
      ⟨true, plateauReason⟩ := by
    norm_num [shouldRecalculateCalories, plateauHist, sampleUser, jsOrQ, sortDesc,
      List.insertionSort, List.orderedInsert, dateGE, mkEntry]
  have hv : (checkWeightVelocity 100 plateauHist ⟨90, 75, 0, .active⟩).type =
      AlertType.slow_progress := by
    norm_num [checkWeightVelocity, checkWeightVelocityS, velocityChain,
      calculateWeeklyChange, sortDesc, List.insertionSort, List.orderedInsert,
      dateGE, plateauHist, mkEntry, goalAchievedAlert]
  have h := analyze_plateau_maintenance_week sampleNutrition 100 sampleUser plateauHist
    Option.none ⟨90, 75, 0, .active⟩ rfl rfl
    (by rw [hv]; decide)
    (by rw [htr])
    (by rw [htr]; decide)
    rfl
  refine ⟨h.2.1, ?_⟩
  rw [h.2.2.2.1]
  norm_num [sampleUser]

/-- C1 counterexample: at `now = 100` with `current = last = 80`, the
history `twoOldHist` has four entries, two of them at or before
`now - 28 = 72` (dates 40 and 70, weights 85 and 80.1).  The earliest such
entry weighs 85, and `|80 - 85| ≥ 0.5`, so the claim predicts no trigger —
yet the trigger fires with the plateau reason, because the code compares
against the most recent entry at or before the cutoff (weight 80.1),
`oldEntries[0]` of a descending sort. -/
theorem shouldRecalculate_not_earliest_cex :
    shouldRecalculateCalories 100 80 80 twoOldHist =
      ⟨true, plateauReason⟩ ∧
    |(80 : ℚ) - 80| < 2 ∧
    twoOldHist.length = 4 ∧
    twoOldHist.map WeightEntry.date = [40, 70, 99, 100] ∧
    twoOldHist.map WeightEntry.weight = [85, 801 / 10, 80, 80] ∧
    ¬ |(80 : ℚ) - 85| < 1 / 2 := by
  refine ⟨?_, by norm_num, by decide, by decide, ?_, by norm_num⟩
  · norm_num [shouldRecalculateCalories, twoOldHist, mkEntry, sortDesc,
      List.insertionSort, List.orderedInsert, dateGE, abs_lt]
  · norm_num [twoOldHist, mkEntry]

/-- C1 (amended): assuming `|current - last_calculated| < 2` and pairwise
distinct entry dates, the trigger fires with the plateau reason exactly
when the history has at least 4 entries and the **most recent** entry at
or before `now - 28 days` is within 0.5 kg of the current weight
(`plateauSpec`); otherwise the result is no trigger. -/
theorem shouldRecalculate_plateau_mostRecent (now cur last : ℚ)
    (h : List WeightEntry)
    (hdiff : |cur - last| < 2) (hnd : (h.map WeightEntry.date).Nodup) :
    (shouldRecalculateCalories now cur last h = ⟨true, plateauReason⟩ ↔
      plateauSpec now cur h) ∧
    (¬ plateauSpec now cur h →
      shouldRecalculateCalories now cur last h = ⟨false, ""⟩) := by
  have h2 : ¬ (2 ≤ |cur - last|) := not_le.mpr hdiff
  unfold shouldRecalculateCalories
  rw [if_neg h2]
  by_cases hlen : 4 ≤ h.length
  · rw [if_pos hlen]
    rcases hf : (sortDesc h).filter (fun e => decide (e.date ≤ now - 28)) with _ | ⟨f, t⟩
    · simp only [hf]
      have hnone := filter_sortDesc_nil hf
      have hnospec : ¬ plateauSpec now cur h := by
        rintro ⟨_, e, hemem, hecut, -, -⟩
        exact hnone e hemem hecut
      refine ⟨⟨fun heq => ?_, fun hs => absurd hs hnospec⟩, fun _ => ?_⟩
      · exact absurd (congrArg RecalcResult.shouldRecalculate heq) (by simp)
      · trivial
    · obtain ⟨hfmem, hfcut, hfmax⟩ := filter_sortDesc_head hf
      simp only [hf]
      by_cases hwt : |cur - f.weight| < 1 / 2
      · rw [if_pos hwt]
        have hspec : plateauSpec now cur h := ⟨hlen, f, hfmem, hfcut, hfmax, hwt⟩
        refine ⟨⟨fun _ => hspec, fun _ => ?_⟩, fun hns => absurd hspec hns⟩
        rfl
      · rw [if_neg hwt]
        have hnospec : ¬ plateauSpec now cur h := by
          rintro ⟨-, e, hemem, hecut, hemax, hewt⟩
          have hef : e = f :=
            List.inj_on_of_nodup_map hnd hemem hfmem
              (le_antisymm (hfmax e hemem hecut) (hemax f hfmem hfcut))
          exact hwt (hef ▸ hewt)
        refine ⟨⟨fun heq => ?_, fun hs => absurd hs hnospec⟩, fun _ => ?_⟩
        · exact absurd (congrArg RecalcResult.shouldRecalculate heq) (by simp)
        · rfl
  · rw [if_neg hlen]
    have hnospec : ¬ plateauSpec now cur h := fun hs => hlen hs.1
    refine ⟨⟨fun heq => ?_, fun hs => absurd hs hnospec⟩, fun _ => ?_⟩
    · exact absurd (congrArg RecalcResult.shouldRecalculate heq) (by simp)
    · rfl

/-- Witness for the amended C1: the flat four-entry history satisfies the
most-recent-old-entry condition at `now = 100`, so the trigger fires with
the plateau reason. -/
theorem shouldRecalculate_plateau_mostRecent_app :
    shouldRecalculateCalories 100 80 80 plateauHist = ⟨true, plateauReason⟩ := by
  refine (shouldRecalculate_plateau_mostRecent 100 80 80 plateauHist
    (by norm_num) (by decide)).1.mpr ⟨by decide, mkEntry 2 80, ?_, by norm_num [mkEntry], ?_, by norm_num [mkEntry]⟩
  · simp [plateauHist]
  · intro e2 he2 hcut
    simp only [plateauHist, List.mem_cons, List.mem_singleton,
      List.not_mem_nil, or_false] at he2
    rcases he2 with rfl | rfl | rfl | rfl
    · norm_num [mkEntry]
    · norm_num [mkEntry]
    · norm_num [mkEntry]
    · exfalso
      norm_num [mkEntry] at hcut

/-- C9: with at least two entries, none of them dated at or before
`now - 7 days` (and pairwise distinct dates), the estimator returns the
prorated weekly rate `(latest.weight - oldest.weight) / max(1, days
between latest and oldest) * 7`; an empty or singleton history returns 0. -/
theorem weeklyChange_prorated_spec :
    (∀ now : ℚ, calculateWeeklyChange now [] = 0) ∧
    (∀ (now : ℚ) (e : WeightEntry), calculateWeeklyChange now [e] = 0) ∧
    (∀ (now : ℚ) (h : List WeightEntry) (latest oldest : WeightEntry),
      2 ≤ h.length → (h.map WeightEntry.date).Nodup →
      (∀ e ∈ h, ¬ e.date ≤ now - 7) →
      latest ∈ h → (∀ e ∈ h, e.date ≤ latest.date) →
      oldest ∈ h → (∀ e ∈ h, oldest.date ≤ e.date) →
      calculateWeeklyChange now h =
        ((latest.weight - oldest.weight) / max 1 (latest.date - oldest.date)) * 7) := by
  refine ⟨fun now => rfl, fun now e => rfl, ?_⟩
  intro now h latest oldest hlen hnd hweek hlmem hlmax homem homin
  have hnlt : ¬ h.length < 2 := not_lt.mpr hlen
  unfold calculateWeeklyChange
  rw [if_neg hnlt]
  rcases hs : sortDesc h with _ | ⟨f, t⟩
  · exfalso
    have h0 : h = [] := sortDesc_eq_nil_iff.mp hs
    rw [h0] at hlen
    exact absurd hlen (by norm_num)
  · simp only [hs]
    have hfil : (f :: t).filter (fun e => decide (e.date ≤ now - 7)) = [] := by
      refine List.filter_eq_nil_iff.mpr ?_
      intro e he
      have : e ∈ h := mem_sortDesc.mp (hs ▸ he)
      simpa using hweek e this
    rw [hfil]
    rcases hgl : (f :: t).getLast? with _ | ol
    · exact absurd hgl (by simp)
    · simp only [hgl]
      obtain ⟨hfm, hfmax⟩ := head_sortDesc_max hs
      have hfl : f = latest :=
        List.inj_on_of_nodup_map hnd hfm hlmem
          (le_antisymm (hlmax f hfm) (hfmax latest hlmem))
      obtain ⟨holm, holmin⟩ := getLast_sortDesc_min (h := h) (f := ol) (by rw [hs]; exact hgl)
      have holo : ol = oldest :=
        List.inj_on_of_nodup_map hnd holm homem
          (le_antisymm (holmin oldest homem) (homin ol holm))
      rw [hfl, holo]

/-- Witness for C9: two entries 3 days apart with weights 80 (older) and
79.4 (latest) prorate to −1.4 kg/week. -/
theorem weeklyChange_prorated_spec_app :
    calculateWeeklyChange 10 [mkEntry 7 80, mkEntry 10 (397 / 5)] = -(7 / 5) := by
  have h := weeklyChange_prorated_spec.2.2 10 [mkEntry 7 80, mkEntry 10 (397 / 5)]
    (mkEntry 10 (397 / 5)) (mkEntry 7 80) (by decide) (by decide)
    (by
      intro e he
      simp only [List.mem_cons, List.mem_singleton, List.not_mem_nil, or_false] at he
      rcases he with rfl | rfl <;> norm_num [mkEntry])
    (by simp)
    (by
      intro e he
      simp only [List.mem_cons, List.mem_singleton, List.not_mem_nil, or_false] at he
      rcases he with rfl | rfl <;> norm_num [mkEntry])
    (by simp)
    (by
      intro e he
      simp only [List.mem_cons, List.mem_singleton, List.not_mem_nil, or_false] at he
      rcases he with rfl | rfl <;> norm_num [mkEntry])
  rw [h]
  norm_num [mkEntry]

/-- C3 is refuted by the code as written: `checkWeightVelocity` (reached
by `analyze` whenever a goal is active) sorts the caller's history array
in place at source line 82 — unlike line 45, which sorts a copy — so an
ascending two-entry history comes back reversed. -/
theorem analyzeS_reorders_history :
    (analyzeCalorieAdjustmentS sampleNutrition 10 sampleUser ascendingHist Option.none).2 ≠
      ascendingHist ∧
    (analyzeCalorieAdjustmentS sampleNutrition 10 sampleUser ascendingHist Option.none).2 =
      [mkEntry 1 80, mkEntry 0 81] := by
  have h2 : (analyzeCalorieAdjustmentS sampleNutrition 10 sampleUser ascendingHist Option.none).2 =
      [mkEntry 1 80, mkEntry 0 81] := by
    rw [analyzeS_snd_active sampleNutrition 10 sampleUser ascendingHist Option.none
      ⟨90, 75, 0, .active⟩ rfl rfl]
    decide
  refine ⟨?_, h2⟩
  rw [h2]
  decide

end NutriSmart
